import Mathlib

/-!
Shallow embedding of the format-conversion core of cf-llm-shadoway
(`src/format-converter.js` and the router in the repository root).

JavaScript objects are modelled by Lean structures whose optional / possibly
absent fields are `Option`s; JavaScript numbers that the converter handles are
modelled by `Int` (the code only branches on truthiness, i.e. zero versus
non-zero, never on fractional values); arbitrary JSON payloads that the
converter carries around opaquely (tool inputs and schemas) are modelled by
the `Json` inductive below.  `undefined`/absent and JavaScript truthiness are
made explicit: `jsTruthyInt` models `if (x)` on an optional number,
`jsTruthyStr` models `if (s)` on an optional string.
-/

/-- Arbitrary JSON value, used for the payloads the converter never inspects
(tool `input`, `input_schema` / `parameters` objects). -/
inductive Json where
  | null : Json
  | bool (b : Bool) : Json
  | num (n : Int) : Json
  | str (s : String) : Json
  | arr (xs : List Json) : Json
  | obj (kvs : List (String × Json)) : Json

mutual

/-- Model of `JSON.stringify` as used on tool-call arguments and tool-result
contents.  String escaping is elided (no claim depends on the concrete
serialised text, only on where a stringified payload is placed). -/
def Json.stringify : Json → String
  | .null => "null"
  | .bool true => "true"
  | .bool false => "false"
  | .num n => toString n
  | .str s => "\"" ++ s ++ "\""
  | .arr xs => "[" ++ Json.stringifyItems xs ++ "]"
  | .obj kvs => "\x7b" ++ Json.stringifyFields kvs ++ "\x7d"

/-- Comma-separated serialisation of JSON array elements. -/
def Json.stringifyItems : List Json → String
  | [] => ""
  | [x] => Json.stringify x
  | x :: xs => Json.stringify x ++ "," ++ Json.stringifyItems xs

/-- Comma-separated serialisation of JSON object fields. -/
def Json.stringifyFields : List (String × Json) → String
  | [] => ""
  | [(k, v)] => "\"" ++ k ++ "\":" ++ Json.stringify v
  | (k, v) :: kvs => "\"" ++ k ++ "\":" ++ Json.stringify v ++ "," ++ Json.stringifyFields kvs

end

/-- Value a request's `stream` field may carry: the code compares it with
`=== true` and `=== 'true'`, so booleans and strings are the shapes that
matter. -/
inductive JsPrim where
  | bool (b : Bool) : JsPrim
  | str (s : String) : JsPrim
deriving DecidableEq

/-- JavaScript truthiness of an optional number: absent, `undefined` and `0`
are falsy (`if (claudeRequest.max_tokens)`). -/
def jsTruthyInt : Option Int → Bool
  | some n => decide (n ≠ 0)
  | none => false

/-- JavaScript truthiness of an optional string: absent and `""` are falsy
(`if (message.content)`, `if (part.text)`). -/
def jsTruthyStr : Option String → Bool
  | some s => decide (s ≠ "")
  | none => false

/-- Model of JavaScript `haystack.includes(needle)`. -/
def strIncludes (hay needle : String) : Bool :=
  decide (needle.data <:+: hay.data)

/-- Model of JavaScript `s.endsWith(sfx)` (suffix on the character sequence;
all configured suffixes are ASCII, so this matches UTF-16 unit semantics). -/
def jsEndsWith (s sfx : String) : Bool :=
  sfx.data.isSuffixOf s.data

/-! ## Claude-format request model -/

/-- One entry of a Claude message's `content` array.  `other` stands for any
block whose `type` is none of `text` / `tool_use` / `tool_result`; the
converter's `for` loops match on `content.type` and silently skip such
blocks. -/
inductive ClaudeBlock where
  | text (text : String) : ClaudeBlock
  | toolUse (id name : String) (input : Json) : ClaudeBlock
  | toolResult (toolUseId : String) (content : Json) : ClaudeBlock
  | other : ClaudeBlock

/-- A Claude message's `content` is either a bare string or an array of
blocks (`typeof message.content === 'string'`). -/
inductive ClaudeContent where
  | str (s : String) : ClaudeContent
  | blocks (bs : List ClaudeBlock) : ClaudeContent

structure ClaudeMessage where
  role : String
  content : ClaudeContent

structure ClaudeTool where
  name : String
  description : Option String
  input_schema : Json

structure ClaudeRequest where
  model : Option String
  messages : List ClaudeMessage
  max_tokens : Option Int
  temperature : Option Int
  stream : Option JsPrim
  tools : Option (List ClaudeTool)

/-! ## Gemini-format request model -/

inductive GeminiPart where
  | text (t : String) : GeminiPart
  | functionCall (name : String) (args : Json) : GeminiPart
  | functionResponse (name : String) (content : Option String) : GeminiPart

structure GeminiContent where
  parts : List GeminiPart
  role : String

structure GenerationConfig where
  maxOutputTokens : Option Int
  temperature : Option Int

structure GeminiFunctionDecl where
  name : String
  description : Option String
  parameters : Json

/-- The code wraps all function declarations in a single-element `tools`
array: `tools = [ \x7b functionDeclarations: [...] \x7d ]`. -/
structure GeminiToolWrapper where
  functionDeclarations : List GeminiFunctionDecl

structure GeminiRequest where
  contents : List GeminiContent
  generationConfig : GenerationConfig
  tools : Option (List GeminiToolWrapper)

/-! ## OpenAI-format request model (output of claudeToOpenAI) -/

structure OpenAIFunctionCall where
  name : String
  arguments : String
deriving DecidableEq

structure OpenAIToolCall where
  id : String
  type : String
  function : OpenAIFunctionCall
deriving DecidableEq

/-- An OpenAI chat message as the converter emits it: the aggregate
text/tool-call message carries `content` and/or `tool_calls`, a synthetic
tool-result message carries `role = "tool"`, `tool_call_id` and `content`. -/
structure OpenAIMessage where
  role : String
  content : Option String
  tool_calls : Option (List OpenAIToolCall)
  tool_call_id : Option String
deriving DecidableEq

structure OpenAIToolFunctionSpec where
  name : String
  description : Option String
  parameters : Json

structure OpenAIToolSpec where
  type : String
  function : OpenAIToolFunctionSpec

structure OpenAIRequest where
  model : Option String
  messages : List OpenAIMessage
  stream : Option JsPrim
  max_tokens : Option Int
  temperature : Option Int
  tools : Option (List OpenAIToolSpec)

/-! ## claudeToGemini (format-converter.js lines 95-147) -/

/-- Body of the inner `for (const content of message.content)` loop of
`claudeToGemini`: `text` and `tool_use` blocks produce a part, every other
block type (including `tool_result`) is skipped. -/
def claudeBlockGeminiPart : ClaudeBlock → Option GeminiPart
  | .text t => some (.text t)
  | .toolUse _ name input => some (.functionCall name input)
  | .toolResult _ _ => none
  | .other => none

/-- Parts collected for one Claude message by `claudeToGemini`. -/
def claudeMessageParts (m : ClaudeMessage) : List GeminiPart :=
  match m.content with
  | .str s => [.text s]
  | .blocks bs => bs.filterMap claudeBlockGeminiPart

/-- `FormatConverter.claudeToGemini`.  Note that the message is pushed onto
`contents` unconditionally, even when `parts` stayed empty. -/
def claudeToGemini (r : ClaudeRequest) : GeminiRequest :=
  { contents := r.messages.map fun m =>
      { parts := claudeMessageParts m
        role := if m.role = "assistant" then "model" else "user" }
    generationConfig :=
      { maxOutputTokens := if jsTruthyInt r.max_tokens then r.max_tokens else none
        temperature := r.temperature }
    tools :=
      match r.tools with
      | some ts =>
          if 0 < ts.length then
            some [⟨ts.map fun t => ⟨t.name, t.description, t.input_schema⟩⟩]
          else none
      | none => none }

/-! ## claudeToOpenAI (format-converter.js lines 150-220) -/

/-- `typeof content.content === 'string' ? content.content
: JSON.stringify(content.content)` for a tool result's payload. -/
def toolResultText : Json → String
  | .str s => s
  | j => Json.stringify j

/-- Accumulator of the `for (const content of message.content)` loop in
`claudeToOpenAI`: tool-result messages already pushed, collected text
snippets, collected tool calls. -/
structure ClaudeToOpenAIScan where
  msgs : List OpenAIMessage
  textContents : List String
  toolCalls : List OpenAIToolCall

/-- The loop itself: `tool_result` pushes a `role = "tool"` message at once,
`text` and `tool_use` only accumulate, anything else is skipped. -/
def claudeBlocksScan : ClaudeToOpenAIScan → List ClaudeBlock → ClaudeToOpenAIScan
  | st, [] => st
  | st, .text t :: rest =>
      claudeBlocksScan { st with textContents := st.textContents ++ [t] } rest
  | st, .toolUse id name input :: rest =>
      claudeBlocksScan
        { st with toolCalls := st.toolCalls ++ [⟨id, "function", ⟨name, Json.stringify input⟩⟩] }
        rest
  | st, .toolResult tuid c :: rest =>
      claudeBlocksScan
        { st with msgs := st.msgs ++ [⟨"tool", some (toolResultText c), none, some tuid⟩] }
        rest
  | st, .other :: rest => claudeBlocksScan st rest

/-- Messages `claudeToOpenAI` emits for one Claude message: the tool-result
messages pushed during the scan, then (when any text or tool call was
collected) one aggregate message. -/
def claudeMessageToOpenAI (m : ClaudeMessage) : List OpenAIMessage :=
  match m.content with
  | .str s => [⟨if m.role = "assistant" then "assistant" else "user", some s, none, none⟩]
  | .blocks bs =>
      let st := claudeBlocksScan ⟨[], [], []⟩ bs
      st.msgs ++
        (if 0 < st.textContents.length ∨ 0 < st.toolCalls.length then
          [⟨if m.role = "assistant" then "assistant" else "user",
            if 0 < st.textContents.length then
              some (String.intercalate "\n" st.textContents)
            else none,
            if 0 < st.toolCalls.length then some st.toolCalls else none,
            none⟩]
        else [])

/-- `FormatConverter.claudeToOpenAI`. -/
def claudeToOpenAI (r : ClaudeRequest) : OpenAIRequest :=
  { model := r.model
    messages := r.messages.flatMap claudeMessageToOpenAI
    stream := r.stream
    max_tokens := if jsTruthyInt r.max_tokens then r.max_tokens else none
    temperature := r.temperature
    tools :=
      match r.tools with
      | some ts =>
          if 0 < ts.length then
            some (ts.map fun t => ⟨"function", ⟨t.name, t.description, t.input_schema⟩⟩)
          else none
      | none => none }

/-! ## openaiToGemini (format-converter.js lines 223-286)

In the source, an incoming OpenAI tool call carries its arguments as a JSON
string which `openaiToGemini` immediately re-parses with `JSON.parse`.  The
input model below holds the parsed value directly (`arguments : Json`), i.e.
the `JSON.parse` is composed into the representation of a well-formed input;
malformed argument strings (on which the source throws) are outside the
model, and no claim concerns them. -/

structure OAIInFunctionCall where
  name : String
  arguments : Json

structure OAIInToolCall where
  id : String
  function : OAIInFunctionCall

structure OAIInToolFunction where
  name : String
  description : Option String
  parameters : Json

structure OAIInTool where
  function : OAIInToolFunction

structure OAIInMessage where
  role : String
  content : Option String
  tool_calls : Option (List OAIInToolCall)
  tool_call_id : Option String

structure OAIInRequest where
  model : Option String
  messages : List OAIInMessage
  max_tokens : Option Int
  temperature : Option Int
  stream : Option JsPrim
  tools : Option (List OAIInTool)

/-- Parts collected for one OpenAI message by `openaiToGemini`: a text part
when `content` is truthy, one `functionCall` part per tool call, and a
`functionResponse` part when the role is `tool`. -/
def oaiMessageParts (m : OAIInMessage) : List GeminiPart :=
  (if jsTruthyStr m.content then [GeminiPart.text (m.content.getD "")] else [])
  ++ (match m.tool_calls with
      | some tcs => tcs.map fun tc => .functionCall tc.function.name tc.function.arguments
      | none => [])
  ++ (if m.role = "tool" then [.functionResponse "function_result" m.content] else [])

/-- Role mapping of `openaiToGemini`. -/
def oaiGeminiRole (role : String) : String :=
  if role = "assistant" then "model" else if role = "tool" then "tool" else "user"

/-- `FormatConverter.openaiToGemini`.  A message is pushed onto `contents`
only when `parts.length > 0`. -/
def openaiToGemini (r : OAIInRequest) : GeminiRequest :=
  { contents := r.messages.filterMap fun m =>
      let parts := oaiMessageParts m
      if 0 < parts.length then some ⟨parts, oaiGeminiRole m.role⟩ else none
    generationConfig :=
      { maxOutputTokens := if jsTruthyInt r.max_tokens then r.max_tokens else none
        temperature := r.temperature }
    tools :=
      match r.tools with
      | some ts =>
          if 0 < ts.length then
            some [⟨ts.map fun t => ⟨t.function.name, t.function.description, t.function.parameters⟩⟩]
          else none
      | none => none }

/-! ## Gemini response model and response converters
(format-converter.js lines 395-483)

`generateId()` mixes `Date.now()` with `Math.random()`; the converters are
parametrised by a fresh-id supply `genId : Nat → String` (index 0 for the
response id, index `i + 1` for a tool-use id created at part index `i`) and,
for `geminiToOpenAI`, by the `created` timestamp. -/

structure GeminiFnCallData where
  name : String
  args : Json

/-- One part of a Gemini candidate: the code tests `if (part.text)` and
`else if (part.functionCall)`, so both fields are modelled as optional. -/
structure GeminiRespPart where
  text : Option String
  functionCall : Option GeminiFnCallData

structure GeminiRespContent where
  parts : List GeminiRespPart

structure GeminiCandidate where
  content : GeminiRespContent

structure UsageMetadata where
  promptTokenCount : Option Int
  candidatesTokenCount : Option Int
  totalTokenCount : Option Int
deriving DecidableEq

structure GeminiResponse where
  candidates : Option (List GeminiCandidate)
  usageMetadata : Option UsageMetadata

structure ClaudeUsage where
  input_tokens : Option Int
  output_tokens : Option Int
deriving DecidableEq

structure ClaudeResponse where
  id : String
  type : String
  role : String
  content : List ClaudeBlock
  usage : Option ClaudeUsage

/-- Per-part body of the `geminiToClaude` loop (`i` is the part's index,
used to draw a fresh tool-use id). -/
def geminiRespPartBlock (genId : Nat → String) (i : Nat) (p : GeminiRespPart) :
    Option ClaudeBlock :=
  if jsTruthyStr p.text then some (.text (p.text.getD ""))
  else
    match p.functionCall with
    | some fc => some (.toolUse (genId (i + 1)) fc.name fc.args)
    | none => none

/-- `FormatConverter.geminiToClaude`. -/
def geminiToClaude (genId : Nat → String) (g : GeminiResponse) : ClaudeResponse :=
  { id := genId 0
    type := "message"
    role := "assistant"
    content :=
      match g.candidates with
      | some (c :: _) =>
          c.content.parts.enum.filterMap fun ip => geminiRespPartBlock genId ip.1 ip.2
      | _ => []
    usage :=
      match g.usageMetadata with
      | some u => some ⟨u.promptTokenCount, u.candidatesTokenCount⟩
      | none => none }

structure OpenAIUsage where
  prompt_tokens : Option Int
  completion_tokens : Option Int
  total_tokens : Option Int
deriving DecidableEq

structure OpenAIRespMessage where
  role : String
  content : String
  tool_calls : Option (List OpenAIToolCall)

structure OpenAIChoice where
  index : Nat
  message : OpenAIRespMessage
  finish_reason : String

structure OpenAIResponse where
  id : String
  object : String
  created : Int
  model : String
  choices : List OpenAIChoice
  usage : Option OpenAIUsage

/-- Per-part tool call of the `geminiToOpenAI` loop (a truthy `text` wins
over `functionCall`, mirroring the `if / else if`). -/
def geminiRespPartToolCall (genId : Nat → String) (i : Nat) (p : GeminiRespPart) :
    Option OpenAIToolCall :=
  if jsTruthyStr p.text then none
  else
    match p.functionCall with
    | some fc => some ⟨genId (i + 1), "function", ⟨fc.name, Json.stringify fc.args⟩⟩
    | none => none

/-- Accumulated `message.content` of `geminiToOpenAI` (`content += part.text`
for each truthy text part, starting from the empty string). -/
def geminiRespText (parts : List GeminiRespPart) : String :=
  parts.foldl (fun acc p => if jsTruthyStr p.text then acc ++ p.text.getD "" else acc) ""

/-- `FormatConverter.geminiToOpenAI`. -/
def geminiToOpenAI (genId : Nat → String) (created : Int) (g : GeminiResponse) :
    OpenAIResponse :=
  { id := genId 0
    object := "chat.completion"
    created := created
    model := "gemini-pro"
    choices :=
      match g.candidates with
      | some (c :: _) =>
          let toolCalls :=
            c.content.parts.enum.filterMap fun ip => geminiRespPartToolCall genId ip.1 ip.2
          [⟨0,
            { role := "assistant"
              content := geminiRespText c.content.parts
              tool_calls := if 0 < toolCalls.length then some toolCalls else none },
            "stop"⟩]
      | _ => []
    usage :=
      match g.usageMetadata with
      | some u => some ⟨u.promptTokenCount, u.candidatesTokenCount, u.totalTokenCount⟩
      | none => none }

/-! ## Stream detection and convertResponse (format-converter.js lines 21-64) -/

/-- The only field of the original request body that `isStreamResponse` (and
`proxyRequest`) reads is `stream`. -/
structure OrigRequest where
  stream : Option JsPrim
deriving DecidableEq

/-- An upstream provider response as `convertResponse` sees it: its body as a
byte/character stream, its status, and the two headers the code reads
(`headers.get` yields `null`, modelled `none`, for an absent header). -/
structure UpstreamResponse where
  body : String
  status : Nat
  contentType : Option String
  transferEncoding : Option String
deriving DecidableEq

/-- `FormatConverter.isStreamResponse`: the original request asked for a
stream (`stream === true || stream === 'true'`), or the response's
content-type contains `text/event-stream`, or its transfer-encoding is
exactly `chunked`. -/
def isStreamResponse (resp : UpstreamResponse) (originalRequest : Option OrigRequest) : Bool :=
  let requestStream : Bool :=
    match originalRequest with
    | some r => decide (r.stream = some (JsPrim.bool true) ∨ r.stream = some (JsPrim.str "true"))
    | none => false
  let contentType := resp.contentType.getD ""
  let isEventStream := strIncludes contentType "text/event-stream"
  let isChunked : Bool := decide (resp.transferEncoding = some "chunked")
  requestStream || isEventStream || isChunked

/-- Result of `FormatConverter.convertResponse`.  `passthrough` is the stream
branch: the upstream body verbatim, the upstream status, and the fixed
`Content-Type: text/event-stream` header set.  `buffered` is the non-stream
branch, which parses the body with `response.json()` and dispatches to
`convertToClaude` / `convertToOpenAI`; those data-level conversions are
modelled separately (`geminiToClaude`, `geminiToOpenAI`) since they operate
on the parsed JSON, not on the byte stream carried here. -/
inductive ConvertOutcome where
  | passthrough (body : String) (status : Nat) (contentType : String) : ConvertOutcome
  | buffered (targetFormat sourceProvider : String) (status : Nat) : ConvertOutcome
  | formatError (msg : String) : ConvertOutcome
deriving DecidableEq

/-- `FormatConverter.convertResponse`, at the byte level. -/
def convertResponse (targetFormat sourceProvider : String) (resp : UpstreamResponse)
    (originalRequest : Option OrigRequest) : ConvertOutcome :=
  if isStreamResponse resp originalRequest then
    ConvertOutcome.passthrough resp.body resp.status "text/event-stream"
  else if targetFormat = "claude" then
    ConvertOutcome.buffered "claude" sourceProvider resp.status
  else if targetFormat = "openai" then
    ConvertOutcome.buffered "openai" sourceProvider resp.status
  else
    ConvertOutcome.formatError ("Unsupported target format: " ++ targetFormat)

/-! ## buildEndpoint (router, src/unnamed/part_000 lines 173-200) -/

structure EndpointRule where
  pathSuffix : String
  action : String
  needsModel : Bool

/-- The `endpointRules.gemini` table, in object-literal insertion order (the
order the `for ... in` loop visits). -/
def geminiEndpointRules (isStream : Bool) : List EndpointRule :=
  [⟨"chat/completions", if isStream then "streamGenerateContent" else "generateContent", true⟩,
   ⟨"messages", if isStream then "streamGenerateContent" else "generateContent", true⟩,
   ⟨"embedContent", "embedContent", true⟩,
   ⟨"embedText", "embedText", true⟩]

/-- `endpointRules[provider]`: only `gemini` has rules; any other provider
yields `undefined`. -/
def endpointRulesFor (provider : String) (isStream : Bool) : Option (List EndpointRule) :=
  if provider = "gemini" then some (geminiEndpointRules isStream) else none

/-- `buildEndpoint`: first rule whose `pathSuffix` the endpoint ends with
rewrites that suffix into `models/<model>:<action>` keeping the preceding
path part (`endpoint.substring(0, endpoint.length - pathSuffix.length)`);
no match, or a provider without rules, passes the endpoint through. -/
def buildEndpoint (format provider endpoint model : String) (isStream : Bool) : String :=
  match endpointRulesFor provider isStream with
  | some rules =>
    match rules.find? (fun r => jsEndsWith endpoint r.pathSuffix) with
    | some r =>
        let basePath := String.mk (endpoint.data.take (endpoint.length - r.pathSuffix.length))
        basePath ++ (if r.needsModel then "models/" ++ model else "") ++ ":" ++ r.action
    | none => endpoint
  | none => endpoint

/-! ## Spec-side decomposition of claudeToOpenAI's per-message output

These three definitions follow the spec's vocabulary (the synthetic
`role=tool` messages derived from `tool_result` blocks, and the single
aggregate message carrying the texts and tool calls); the claim about block
ordering is settled by comparing them with the loop `claudeBlocksScan`
translated from the source. -/

/-- The synthetic `role = "tool"` messages of one input message, in block
order. -/
def toolResultMessages (bs : List ClaudeBlock) : List OpenAIMessage :=
  bs.filterMap fun b =>
    match b with
    | .toolResult tuid c => some ⟨"tool", some (toolResultText c), none, some tuid⟩
    | _ => none

/-- The text snippets of one input message, in block order. -/
def textsOf (bs : List ClaudeBlock) : List String :=
  bs.filterMap fun b =>
    match b with
    | .text t => some t
    | _ => none

/-- The tool calls of one input message, in block order. -/
def toolCallsOf (bs : List ClaudeBlock) : List OpenAIToolCall :=
  bs.filterMap fun b =>
    match b with
    | .toolUse id name input => some ⟨id, "function", ⟨name, Json.stringify input⟩⟩
    | _ => none

/-- The aggregate message (zero or one) for one input message of role
`role`: emitted only when some text or tool call was collected. -/
def aggregateMessage (role : String) (bs : List ClaudeBlock) : List OpenAIMessage :=
  if 0 < (textsOf bs).length ∨ 0 < (toolCallsOf bs).length then
    [⟨if role = "assistant" then "assistant" else "user",
      if 0 < (textsOf bs).length then some (String.intercalate "\n" (textsOf bs)) else none,
      if 0 < (toolCallsOf bs).length then some (toolCallsOf bs) else none,
      none⟩]
  else []

/-! ## Helper lemmas -/

/-- Running the `claudeToOpenAI` content loop from any accumulator appends,
in block order, the tool-result messages, the text snippets and the tool
calls of the scanned blocks. -/
theorem claudeBlocksScan_spec (bs : List ClaudeBlock) (st : ClaudeToOpenAIScan) :
    claudeBlocksScan st bs =
      ⟨st.msgs ++ toolResultMessages bs, st.textContents ++ textsOf bs,
       st.toolCalls ++ toolCallsOf bs⟩ := by
  induction bs generalizing st with
  | nil => simp [claudeBlocksScan, toolResultMessages, textsOf, toolCallsOf]
  | cons b rest ih =>
    cases b <;>
      simp [claudeBlocksScan, toolResultMessages, textsOf, toolCallsOf,
        List.filterMap_cons, ih]

/-- Every `contents` entry `openaiToGemini` emits has a non-empty `parts`
array (the `if (parts.length > 0)` guard). -/
theorem openaiToGemini_parts_nonempty (r : OAIInRequest) (c : GeminiContent)
    (hc : c ∈ (openaiToGemini r).contents) : c.parts ≠ [] := by
  simp only [openaiToGemini] at hc
  obtain ⟨m, hm, heq⟩ := List.mem_filterMap.mp hc
  split at heq
  · obtain rfl := Option.some.inj heq
    exact List.ne_nil_of_length_pos (by assumption)
  · exact absurd heq (by simp)

/-- Every message `claudeToOpenAI` emits carries a `content` string or a
`tool_calls` array (the `textContents.length > 0 || toolCalls.length > 0`
guard, plus the fact that synthetic tool messages and bare-string messages
always set `content`). -/
theorem claudeToOpenAI_message_nonempty (r : ClaudeRequest) (m : OpenAIMessage)
    (hm : m ∈ (claudeToOpenAI r).messages) :
    m.content.isSome = true ∨ m.tool_calls.isSome = true := by
  simp only [claudeToOpenAI] at hm
  obtain ⟨msg, _, hmem⟩ := List.mem_flatMap.mp hm
  obtain ⟨mrole, mcontent⟩ := msg
  cases mcontent with
  | str s =>
    simp [claudeMessageToOpenAI] at hmem
    subst hmem
    left; rfl
  | blocks bs =>
    have horder : claudeMessageToOpenAI ⟨mrole, .blocks bs⟩ =
        toolResultMessages bs ++ aggregateMessage mrole bs := by
      simp [claudeMessageToOpenAI, claudeBlocksScan_spec, aggregateMessage]
    rw [horder] at hmem
    rcases List.mem_append.mp hmem with h | h
    · obtain ⟨b, _, heq⟩ := List.mem_filterMap.mp h
      cases b <;> simp at heq
      obtain rfl := heq.symm
      left; rfl
    · rw [aggregateMessage] at h
      split at h
      · simp at h
        subst h
        by_cases ht : 0 < (textsOf bs).length
        · left; simp [ht]
        · rename_i hcond
          right
          rcases hcond with hx | hx
          · exact absurd hx ht
          · simp [hx]
      · simp at h

/-- A string always ends with the suffix it was built from. -/
theorem jsEndsWith_append (pre s : String) : jsEndsWith (pre ++ s) s = true := by
  rw [jsEndsWith, String.data_append]
  exact List.isSuffixOf_iff_suffix.mpr (List.suffix_append _ _)

/-- `pre ++ s` does not end with `t` when neither of `s`, `t` is a suffix of
the other. -/
theorem jsEndsWith_append_ne (pre s t : String)
    (h1 : ¬ t.data <:+ s.data) (h2 : ¬ s.data <:+ t.data) :
    jsEndsWith (pre ++ s) t = false := by
  rw [jsEndsWith, String.data_append, Bool.eq_false_iff]
  intro hTrue
  have hsuf := List.isSuffixOf_iff_suffix.mp hTrue
  rcases List.suffix_or_suffix_of_suffix hsuf (List.suffix_append pre.data s.data) with h | h
  · exact h1 h
  · exact h2 h

/-- `endpoint.substring(0, endpoint.length - pathSuffix.length)` recovers the
part of the path before the matched suffix. -/
theorem basePath_append (pre s : String) :
    String.mk ((pre ++ s).data.take ((pre ++ s).length - s.length)) = pre := by
  have h : (pre ++ s).length - s.length = pre.data.length := by
    show (pre ++ s).data.length - s.data.length = pre.data.length
    rw [String.data_append, List.length_append, Nat.add_sub_cancel]
  rw [String.data_append, h, List.take_left]

/-! ## Claim C1 -/

/-- Claim C1 counterexample: a streaming Gemini-provider response requested
in claude format — a pair with no stream mapping — is not rejected: the code
raises no error, and the whole (non-empty) upstream body is forwarded to the
caller verbatim.  This refutes the claim that an
UnsupportedStreamConversionError / ConversionSetupError is raised with zero
bytes forwarded. -/
theorem C1_unsupported_pair_forwards_bytes_cex :
    convertResponse "claude" "gemini"
        ⟨"data: \x7b\"candidates\":[]\x7d\r\n\r\n", 200, some "text/event-stream", none⟩
        (some ⟨some (JsPrim.bool true)⟩) =
      ConvertOutcome.passthrough "data: \x7b\"candidates\":[]\x7d\r\n\r\n" 200 "text/event-stream"
    ∧ ("data: \x7b\"candidates\":[]\x7d\r\n\r\n" : String) ≠ "" :=
  ⟨rfl, by decide⟩

/-- Claim C1 (amended): for every streaming upstream response, whatever the
(source provider, target format) pair — supported or not — the response
conversion raises no error at all and passes the upstream body through
verbatim under fixed text/event-stream headers. -/
theorem C1_stream_always_passthrough (targetFormat sourceProvider : String)
    (resp : UpstreamResponse) (originalRequest : Option OrigRequest)
    (h : isStreamResponse resp originalRequest = true) :
    convertResponse targetFormat sourceProvider resp originalRequest =
      ConvertOutcome.passthrough resp.body resp.status "text/event-stream" := by
  simp [convertResponse, h]

/-- Witness for C1 (amended) at a concrete event-stream response. -/
theorem C1_stream_always_passthrough_witness :
    isStreamResponse ⟨"data: x\n\n", 200, some "text/event-stream", none⟩ (some ⟨none⟩) = true
    ∧ convertResponse "claude" "gemini"
        ⟨"data: x\n\n", 200, some "text/event-stream", none⟩ (some ⟨none⟩) =
      ConvertOutcome.passthrough "data: x\n\n" 200 "text/event-stream" :=
  ⟨by decide, C1_stream_always_passthrough "claude" "gemini"
      ⟨"data: x\n\n", 200, some "text/event-stream", none⟩ (some ⟨none⟩) (by decide)⟩

/-! ## Claim C2 -/

/-- Claim C2 counterexample: an OpenAI stream ending with the literal
terminator, requested in claude format, is returned byte-for-byte unchanged;
the output contains no message_delta and no message_stop frame (the strings
do not even occur in the forwarded bytes), refuting the claimed
message_delta / message_stop closing sequence. -/
theorem C2_done_stream_not_transcoded_cex :
    convertResponse "claude" "openai"
        ⟨"data: \x7b\"choices\":[\x7b\"delta\":\x7b\"content\":\"hi\"\x7d\x7d]\x7d\n\ndata: [DONE]\n\n",
          200, some "text/event-stream", none⟩
        (some ⟨some (JsPrim.bool true)⟩) =
      ConvertOutcome.passthrough
        "data: \x7b\"choices\":[\x7b\"delta\":\x7b\"content\":\"hi\"\x7d\x7d]\x7d\n\ndata: [DONE]\n\n"
        200 "text/event-stream"
    ∧ strIncludes
        "data: \x7b\"choices\":[\x7b\"delta\":\x7b\"content\":\"hi\"\x7d\x7d]\x7d\n\ndata: [DONE]\n\n"
        "message_delta" = false
    ∧ strIncludes
        "data: \x7b\"choices\":[\x7b\"delta\":\x7b\"content\":\"hi\"\x7d\x7d]\x7d\n\ndata: [DONE]\n\n"
        "message_stop" = false :=
  ⟨rfl, by decide, by decide⟩

/-- Claim C2 (amended): an upstream OpenAI-format SSE stream ending with the
literal terminator `data: [DONE]\n\n`, requested in claude format, is passed
through unchanged — the caller receives exactly the upstream bytes, so a
message_delta or message_stop frame appears only if the upstream bytes
already contain one. -/
theorem C2_done_stream_passthrough (resp : UpstreamResponse) (q : OrigRequest)
    (hstream : isStreamResponse resp (some q) = true)
    (hdone : jsEndsWith resp.body "data: [DONE]\n\n" = true) :
    convertResponse "claude" "openai" resp (some q) =
      ConvertOutcome.passthrough resp.body resp.status "text/event-stream" := by
  simp [convertResponse, hstream]

/-- Witness for C2 (amended) at a concrete terminated OpenAI stream. -/
theorem C2_done_stream_passthrough_witness :
    isStreamResponse ⟨"data: [DONE]\n\n", 200, some "text/event-stream", none⟩
        (some ⟨some (JsPrim.bool true)⟩) = true
    ∧ jsEndsWith "data: [DONE]\n\n" "data: [DONE]\n\n" = true
    ∧ convertResponse "claude" "openai"
        ⟨"data: [DONE]\n\n", 200, some "text/event-stream", none⟩
        (some ⟨some (JsPrim.bool true)⟩) =
      ConvertOutcome.passthrough "data: [DONE]\n\n" 200 "text/event-stream" :=
  ⟨by decide, by decide,
    C2_done_stream_passthrough ⟨"data: [DONE]\n\n", 200, some "text/event-stream", none⟩
      ⟨some (JsPrim.bool true)⟩ (by decide) (by decide)⟩

/-! ## Claim C3 -/

/-- Claim C3 counterexample: in claudeToOpenAI, a user message whose content
is a text block followed by a tool_result block is converted into the
synthetic role=tool message first and the text-carrying message second — the
text does appear after the tool message derived from the tool_result that
followed it, refuting block-order preservation. -/
theorem C3_text_after_tool_message_cex :
    (claudeToOpenAI
        ⟨some "m", [⟨"user", .blocks [.text "A", .toolResult "call_1" (.str "ok")]⟩],
          none, none, none, none⟩).messages =
      [⟨"tool", some "ok", none, some "call_1"⟩, ⟨"user", some "A", none, none⟩] := by
  decide

/-- Claim C3 (amended): for one block-array input message, claudeToOpenAI
emits first the synthetic role=tool messages of all tool_result blocks, in
block order, and then (when any text or tool_use block was present) a single
aggregate message carrying the texts joined in block order and the tool
calls in block order.  Text blocks keep their order relative to each other,
tool_use blocks likewise, but any tool_result is hoisted before the
aggregate message, so a text block preceding a tool_result appears after the
derived role=tool message. -/
theorem C3_claudeToOpenAI_block_order (role : String) (bs : List ClaudeBlock) :
    claudeMessageToOpenAI ⟨role, .blocks bs⟩ =
      toolResultMessages bs ++ aggregateMessage role bs := by
  simp [claudeMessageToOpenAI, claudeBlocksScan_spec, aggregateMessage]

/-! ## Claim C4 -/

/-- Claim C4 counterexample: claudeToGemini does not drop a message whose
content reduces to nothing — a message holding only a tool_result block
(which the Gemini request mapping cannot express) is emitted as a contents
entry with an empty parts array. -/
theorem C4_claudeToGemini_empty_parts_cex :
    (claudeToGemini
        ⟨some "m", [⟨"user", .blocks [.toolResult "t1" (.str "ok")]⟩],
          none, none, none, none⟩).contents =
      [⟨[], "user"⟩] := rfl

/-- Claim C4 (amended): openaiToGemini and claudeToOpenAI do drop messages
that reduce to empty content — every emitted Gemini contents entry has a
non-empty parts array, and every emitted OpenAI message carries a content
string or a tool_calls array — but claudeToGemini does not (see the
counterexample). -/
theorem C4_empty_messages_dropped (r : OAIInRequest) (s : ClaudeRequest)
    (c : GeminiContent) (m : OpenAIMessage) :
    (c ∈ (openaiToGemini r).contents → c.parts ≠ []) ∧
    (m ∈ (claudeToOpenAI s).messages →
      m.content.isSome = true ∨ m.tool_calls.isSome = true) :=
  ⟨openaiToGemini_parts_nonempty r c, claudeToOpenAI_message_nonempty s m⟩

/-- Witness for C4 (amended) at concrete one-message requests. -/
theorem C4_empty_messages_dropped_witness :
    ((⟨[GeminiPart.text "Hello"], "user"⟩ : GeminiContent).parts ≠ [])
    ∧ ((⟨"user", some "Hi", none, none⟩ : OpenAIMessage).content.isSome = true
        ∨ (⟨"user", some "Hi", none, none⟩ : OpenAIMessage).tool_calls.isSome = true) :=
  ⟨(C4_empty_messages_dropped
      ⟨some "m", [⟨"user", some "Hello", none, none⟩], none, none, none, none⟩
      ⟨some "m", [⟨"user", .str "Hi"⟩], none, none, none, none⟩
      ⟨[GeminiPart.text "Hello"], "user"⟩ ⟨"user", some "Hi", none, none⟩).1
      (List.mem_singleton.mpr rfl),
   (C4_empty_messages_dropped
      ⟨some "m", [⟨"user", some "Hello", none, none⟩], none, none, none, none⟩
      ⟨some "m", [⟨"user", .str "Hi"⟩], none, none, none, none⟩
      ⟨[GeminiPart.text "Hello"], "user"⟩ ⟨"user", some "Hi", none, none⟩).2
      (by decide)⟩

/-! ## Claim C5 -/

/-- Claim C5: when source and target grammars are identical (OpenAI provider
with openai format, Anthropic provider with claude format), the streamed
response returned to the caller is the upstream body byte-for-byte: the
stream path is the identity transform on the body, with no parsing or
re-serialization. -/
theorem C5_same_grammar_stream_identity (targetFormat sourceProvider : String)
    (resp : UpstreamResponse) (originalRequest : Option OrigRequest)
    (hpair : (targetFormat = "openai" ∧ sourceProvider = "openai")
      ∨ (targetFormat = "claude" ∧ sourceProvider = "anthropic"))
    (hstream : isStreamResponse resp originalRequest = true) :
    convertResponse targetFormat sourceProvider resp originalRequest =
      ConvertOutcome.passthrough resp.body resp.status "text/event-stream" := by
  simp [convertResponse, hstream]

/-- Witness for C5 at the OpenAI-to-openai pair and a concrete stream. -/
theorem C5_same_grammar_stream_identity_witness :
    isStreamResponse ⟨"data: s\n\n", 200, some "text/event-stream", none⟩ (some ⟨none⟩) = true
    ∧ convertResponse "openai" "openai"
        ⟨"data: s\n\n", 200, some "text/event-stream", none⟩ (some ⟨none⟩) =
      ConvertOutcome.passthrough "data: s\n\n" 200 "text/event-stream" :=
  ⟨by decide, C5_same_grammar_stream_identity "openai" "openai"
      ⟨"data: s\n\n", 200, some "text/event-stream", none⟩ (some ⟨none⟩)
      (Or.inl ⟨rfl, rfl⟩) (by decide)⟩

/-! ## Claim C6 -/

/-- Claim C6: a Gemini response without usageMetadata converts to Claude and
OpenAI responses with no usage field at all (absent, not zero-filled); with
usageMetadata present, the counts are translated field-by-field —
promptTokenCount to input_tokens / prompt_tokens, candidatesTokenCount to
output_tokens / completion_tokens (and totalTokenCount to total_tokens on
the OpenAI side). -/
theorem C6_usage_omitted_or_mapped (genId : Nat → String) (created : Int)
    (g : GeminiResponse) :
    (g.usageMetadata = none →
      (geminiToClaude genId g).usage = none
      ∧ (geminiToOpenAI genId created g).usage = none) ∧
    (∀ u, g.usageMetadata = some u →
      (geminiToClaude genId g).usage = some ⟨u.promptTokenCount, u.candidatesTokenCount⟩
      ∧ (geminiToOpenAI genId created g).usage =
          some ⟨u.promptTokenCount, u.candidatesTokenCount, u.totalTokenCount⟩) := by
  constructor
  · intro h
    simp [geminiToClaude, geminiToOpenAI, h]
  · intro u h
    simp [geminiToClaude, geminiToOpenAI, h]

/-- Witness for C6 at a concrete response without and with usageMetadata. -/
theorem C6_usage_omitted_or_mapped_witness :
    (geminiToClaude (fun _ => "id") ⟨none, none⟩).usage = none
    ∧ (geminiToClaude (fun _ => "id")
          ⟨none, some ⟨some 3, some 5, some 8⟩⟩).usage = some ⟨some 3, some 5⟩
    ∧ (geminiToOpenAI (fun _ => "id") 0
          ⟨none, some ⟨some 3, some 5, some 8⟩⟩).usage = some ⟨some 3, some 5, some 8⟩ :=
  ⟨((C6_usage_omitted_or_mapped (fun _ => "id") 0 ⟨none, none⟩).1 rfl).1,
   ((C6_usage_omitted_or_mapped (fun _ => "id") 0
        ⟨none, some ⟨some 3, some 5, some 8⟩⟩).2 ⟨some 3, some 5, some 8⟩ rfl).1,
   ((C6_usage_omitted_or_mapped (fun _ => "id") 0
        ⟨none, some ⟨some 3, some 5, some 8⟩⟩).2 ⟨some 3, some 5, some 8⟩ rfl).2⟩

/-! ## Claim C7 -/

/-- Claim C7 (Scenario A): the Claude-format request with model
gemini-2.5-flash and the single user message whose content is the bare
string Hello converts, for provider gemini, to a request whose contents
field is exactly one user entry with the single text part Hello; and the
bare-string content is treated identically to a single text block. -/
theorem C7_scenarioA_hello :
    (claudeToGemini
        ⟨some "gemini-2.5-flash", [⟨"user", .str "Hello"⟩], none, none, none, none⟩).contents =
      [⟨[GeminiPart.text "Hello"], "user"⟩]
    ∧ claudeToGemini
        ⟨some "gemini-2.5-flash", [⟨"user", .str "Hello"⟩], none, none, none, none⟩ =
      claudeToGemini
        ⟨some "gemini-2.5-flash", [⟨"user", .blocks [.text "Hello"]⟩], none, none, none, none⟩ :=
  ⟨rfl, rfl⟩

/-! ## Claim C8 -/

/-- Claim C8 counterexample: a request with max_tokens present and equal to
0 does not get the claimed mapping — JavaScript truthiness drops the value,
so maxOutputTokens / max_tokens are absent instead of 0, in all three
request converters (temperature 0 is passed through, making the asymmetry
explicit). -/
theorem C8_max_tokens_zero_dropped_cex :
    (claudeToGemini ⟨some "m", [], some 0, some 0, none, none⟩).generationConfig.maxOutputTokens
      = none
    ∧ (claudeToOpenAI ⟨some "m", [], some 0, some 0, none, none⟩).max_tokens = none
    ∧ (openaiToGemini ⟨some "m", [], some 0, some 0, none, none⟩).generationConfig.maxOutputTokens
      = none
    ∧ (claudeToGemini ⟨some "m", [], some 0, some 0, none, none⟩).generationConfig.temperature
      = some 0 :=
  ⟨rfl, rfl, rfl, rfl⟩

/-- Claim C8 (amended): maxTokens is mapped to max_tokens /
generationConfig.maxOutputTokens with the same value whenever it is present
and non-zero (the truthiness guard drops a present 0 and absent values
alike), and temperature is passed through unchanged whenever present,
including 0, in claudeToGemini, claudeToOpenAI and openaiToGemini. -/
theorem C8_param_mapping (r : ClaudeRequest) (q : OAIInRequest) (n : Int) :
    (r.max_tokens = some n → n ≠ 0 →
      (claudeToGemini r).generationConfig.maxOutputTokens = some n
      ∧ (claudeToOpenAI r).max_tokens = some n) ∧
    (q.max_tokens = some n → n ≠ 0 →
      (openaiToGemini q).generationConfig.maxOutputTokens = some n) ∧
    ((r.max_tokens = some 0 ∨ r.max_tokens = none) →
      (claudeToGemini r).generationConfig.maxOutputTokens = none
      ∧ (claudeToOpenAI r).max_tokens = none) ∧
    (claudeToGemini r).generationConfig.temperature = r.temperature ∧
    (claudeToOpenAI r).temperature = r.temperature ∧
    (openaiToGemini q).generationConfig.temperature = q.temperature := by
  refine ⟨?_, ?_, ?_, rfl, rfl, rfl⟩
  · intro h hn
    constructor <;> simp [claudeToGemini, claudeToOpenAI, jsTruthyInt, h, hn]
  · intro h hn
    simp [openaiToGemini, jsTruthyInt, h, hn]
  · rintro (h | h) <;>
      exact ⟨by simp [claudeToGemini, jsTruthyInt, h],
             by simp [claudeToOpenAI, jsTruthyInt, h]⟩

/-- Witness for C8 (amended) at concrete requests with max_tokens 7. -/
theorem C8_param_mapping_witness :
    ((claudeToGemini ⟨some "m", [], some 7, none, none, none⟩).generationConfig.maxOutputTokens
        = some 7
      ∧ (claudeToOpenAI ⟨some "m", [], some 7, none, none, none⟩).max_tokens = some 7)
    ∧ (openaiToGemini ⟨some "m", [], some 7, none, none, none⟩).generationConfig.maxOutputTokens
        = some 7 :=
  ⟨(C8_param_mapping ⟨some "m", [], some 7, none, none, none⟩
      ⟨some "m", [], some 7, none, none, none⟩ 7).1 rfl (by decide),
   (C8_param_mapping ⟨some "m", [], some 7, none, none, none⟩
      ⟨some "m", [], some 7, none, none, none⟩ 7).2.1 rfl (by decide)⟩

/-! ## Claim C9 -/

/-- Claim C9: for provider gemini, a path ending with a configured suffix
(chat/completions, messages, embedContent, embedText) is rewritten by
buildEndpoint into `models/<model>:<action>` in place of exactly that
suffix, keeping the preceding path part; for chat/completions and messages
the action is streamGenerateContent when the stream flag is set and
generateContent otherwise; a path matching no configured suffix, or any
provider other than gemini (which has no rules), passes through
unmodified. -/
theorem C9_buildEndpoint_rules (format model ep pre : String) (isStream : Bool) :
    (ep = pre ++ "chat/completions" →
      buildEndpoint format "gemini" ep model isStream =
        pre ++ "models/" ++ model ++ ":" ++
          (if isStream then "streamGenerateContent" else "generateContent")) ∧
    (ep = pre ++ "messages" →
      buildEndpoint format "gemini" ep model isStream =
        pre ++ "models/" ++ model ++ ":" ++
          (if isStream then "streamGenerateContent" else "generateContent")) ∧
    (ep = pre ++ "embedContent" →
      buildEndpoint format "gemini" ep model isStream =
        pre ++ "models/" ++ model ++ ":" ++ "embedContent") ∧
    (ep = pre ++ "embedText" →
      buildEndpoint format "gemini" ep model isStream =
        pre ++ "models/" ++ model ++ ":" ++ "embedText") ∧
    (jsEndsWith ep "chat/completions" = false → jsEndsWith ep "messages" = false →
      jsEndsWith ep "embedContent" = false → jsEndsWith ep "embedText" = false →
      buildEndpoint format "gemini" ep model isStream = ep) ∧
    (∀ provider, provider ≠ "gemini" →
      buildEndpoint format provider ep model isStream = ep) := by
  refine ⟨?_, ?_, ?_, ?_, ?_, ?_⟩
  · rintro rfl
    have h1 := jsEndsWith_append pre "chat/completions"
    simp only [buildEndpoint, endpointRulesFor, if_pos rfl, geminiEndpointRules,
      List.find?, h1, basePath_append, if_true]
    simp [String.append_assoc]
  · rintro rfl
    have h1 : jsEndsWith (pre ++ "messages") "chat/completions" = false :=
      jsEndsWith_append_ne pre "messages" "chat/completions" (by decide) (by decide)
    have h2 := jsEndsWith_append pre "messages"
    simp only [buildEndpoint, endpointRulesFor, if_pos rfl, geminiEndpointRules,
      List.find?, h1, h2, basePath_append, if_true]
    simp [String.append_assoc]
  · rintro rfl
    have h1 : jsEndsWith (pre ++ "embedContent") "chat/completions" = false :=
      jsEndsWith_append_ne pre "embedContent" "chat/completions" (by decide) (by decide)
    have h2 : jsEndsWith (pre ++ "embedContent") "messages" = false :=
      jsEndsWith_append_ne pre "embedContent" "messages" (by decide) (by decide)
    have h3 := jsEndsWith_append pre "embedContent"
    simp only [buildEndpoint, endpointRulesFor, if_pos rfl, geminiEndpointRules,
      List.find?, h1, h2, h3, basePath_append, if_true]
    simp [String.append_assoc]
  · rintro rfl
    have h1 : jsEndsWith (pre ++ "embedText") "chat/completions" = false :=
      jsEndsWith_append_ne pre "embedText" "chat/completions" (by decide) (by decide)
    have h2 : jsEndsWith (pre ++ "embedText") "messages" = false :=
      jsEndsWith_append_ne pre "embedText" "messages" (by decide) (by decide)
    have h3 : jsEndsWith (pre ++ "embedText") "embedContent" = false :=
      jsEndsWith_append_ne pre "embedText" "embedContent" (by decide) (by decide)
    have h4 := jsEndsWith_append pre "embedText"
    simp only [buildEndpoint, endpointRulesFor, if_pos rfl, geminiEndpointRules,
      List.find?, h1, h2, h3, h4, basePath_append, if_true]
    simp [String.append_assoc]
  · intro h1 h2 h3 h4
    simp only [buildEndpoint, endpointRulesFor, if_pos rfl, geminiEndpointRules,
      List.find?, h1, h2, h3, h4, if_true]
  · intro provider h
    simp [buildEndpoint, endpointRulesFor, h]

/-- Witness for C9 at the standard OpenAI chat path and the embeddings
passthrough. -/
theorem C9_buildEndpoint_rules_witness :
    buildEndpoint "openai" "gemini" "v1/chat/completions" "gemini-pro" false =
      "v1/" ++ "models/" ++ "gemini-pro" ++ ":" ++
        (if false then "streamGenerateContent" else "generateContent")
    ∧ buildEndpoint "openai" "gemini" "v1/embeddings" "gemini-pro" false = "v1/embeddings"
    ∧ buildEndpoint "claude" "anthropic" "v1/messages" "claude-3-sonnet" false = "v1/messages" :=
  ⟨(C9_buildEndpoint_rules "openai" "gemini-pro" "v1/chat/completions" "v1/" false).1 (by decide),
   (C9_buildEndpoint_rules "openai" "gemini-pro" "v1/embeddings" "" false).2.2.2.2.1
      (by decide) (by decide) (by decide) (by decide),
   (C9_buildEndpoint_rules "claude" "claude-3-sonnet" "v1/messages" "" false).2.2.2.2.2
      "anthropic" (by decide)⟩

/-! ## Claim C10 -/

/-- Claim C10: convertResponse returns the upstream body verbatim, tagged
with the fixed text/event-stream headers, exactly when the original
request's stream field is true or the string true, or the upstream
content-type contains text/event-stream, or the upstream transfer-encoding
equals chunked; in every other case the body goes through buffered format
conversion instead. -/
theorem C10_stream_bypass_iff (targetFormat sourceProvider : String)
    (resp : UpstreamResponse) (q : OrigRequest) :
    (convertResponse targetFormat sourceProvider resp (some q) =
        ConvertOutcome.passthrough resp.body resp.status "text/event-stream")
      ↔ (q.stream = some (JsPrim.bool true) ∨ q.stream = some (JsPrim.str "true")
          ∨ strIncludes (resp.contentType.getD "") "text/event-stream" = true
          ∨ resp.transferEncoding = some "chunked") := by
  have hkey : isStreamResponse resp (some q) = true ↔
      (q.stream = some (JsPrim.bool true) ∨ q.stream = some (JsPrim.str "true")
        ∨ strIncludes (resp.contentType.getD "") "text/event-stream" = true
        ∨ resp.transferEncoding = some "chunked") := by
    simp [isStreamResponse]
    tauto
  rw [← hkey]
  cases hb : isStreamResponse resp (some q) with
  | true => simp [convertResponse, hb]
  | false =>
    simp only [convertResponse, hb, if_false, Bool.false_eq_true]
    constructor
    · intro h
      by_cases ht1 : targetFormat = "claude" <;> by_cases ht2 : targetFormat = "openai" <;>
        simp [ht1, ht2] at h
    · intro h
      exact absurd h (by simp)
